import Mathlib

/-!
Shallow embedding of the finean portfolio library core
(`src/finean/time_series_predictor.py` and `src/finean/portfolio_optimizer.py`)
over exact arithmetic: weights, returns and covariances are rationals; the
volatility (a square root) and the Sharpe ratio live in the reals.  The
external SQP solver (`scipy.optimize.minimize`) is modelled as an abstract
function from the optimization problem the code assembles to a best-iterate /
success-flag pair, possibly raising (modelled by `Except`).
-/

namespace Finean

/- ===================== Time series predictor ===================== -/

/-- State of a `TimeSeriesPredictor` after `__init__` + `fit`: the method
string, the stored return table (rows in time order, one column per asset),
and the optional method-specific attributes.  `span = none` models the
`self.span` attribute being absent (never assigned by `fit`), likewise
`window`. -/
structure TimeSeriesPredictor (N : ℕ) where
  method : String
  returns : List (Fin N → ℚ)
  span : Option ℕ
  window : Option ℕ

/-- The `**kwargs` of `fit`: the keys the code reads (`span`, `window`),
`none` meaning the key is absent. -/
structure FitKwargs where
  span : Option ℕ := none
  window : Option ℕ := none

/-- `TimeSeriesPredictor(method)` followed by `fit(returns, **kwargs)`:
stores the table, and `span = kwargs.get('span', 60)` only when the method is
`'ewma'`, `window = kwargs.get('window', 30)` only for `'sma'`/`'ema'`.
The source performs no validation of the method string here. -/
def fit {N : ℕ} (method : String) (returns : List (Fin N → ℚ))
    (kwargs : FitKwargs) : TimeSeriesPredictor N :=
  { method := method
    returns := returns
    span := if method = "ewma" then some (kwargs.span.getD 60) else none
    window := if method = "sma" ∨ method = "ema" then some (kwargs.window.getD 30) else none }

/-- Column mean of the return table (`self.returns.mean()` for one asset). -/
def colMean {N : ℕ} (data : List (Fin N → ℚ)) (j : Fin N) : ℚ :=
  (data.map fun r => r j).sum / data.length

/-- Last value of `Series.ewm(span, adjust=False).mean()`:
`y₀ = x₀`, `yₜ = (1 - α)·yₜ₋₁ + α·xₜ` with `α = 2/(span+1)`; the empty-table
corner (`iloc[-1]` on no rows) is modelled as `0`, unused by the theorems. -/
def ewmaLast (α : ℚ) : List ℚ → ℚ
  | [] => 0
  | x :: rest => rest.foldl (fun y z => (1 - α) * y + α * z) x

/-- Last value of `Series.rolling(window).mean()`: the mean of the final
`window` entries.  pandas yields NaN when there are fewer than `window`
rows; that corner is modelled as `0`, unused by the theorems. -/
def rollingMeanLast (window : ℕ) (xs : List ℚ) : ℚ :=
  if xs.length < window then 0
  else ((xs.drop (xs.length - window)).sum) / window

/-- `_predict_ewma` / `_predict_ema` body: per-column exponentially weighted
mean with smoothing span `s`, last value. -/
def predictEwmaWith {N : ℕ} (s : ℕ) (data : List (Fin N → ℚ)) : Fin N → ℚ :=
  fun j => ewmaLast (2 / ((s : ℚ) + 1)) (data.map fun r => r j)

/-- `_predict_sma` body: per-column rolling mean, last value. -/
def predictSmaWith {N : ℕ} (w : ℕ) (data : List (Fin N → ℚ)) : Fin N → ℚ :=
  fun j => rollingMeanLast w (data.map fun r => r j)

/-- `_predict_historical_mean` body: per-column arithmetic mean. -/
def predictHistoricalMean {N : ℕ} (data : List (Fin N → ℚ)) : Fin N → ℚ :=
  fun j => colMean data j

/-- `predict_returns(horizon)`: dispatch on the stored method string; the
`horizon` argument is accepted and ignored, exactly as in the source.  The
attribute reads `self.span` / `self.window` fail (AttributeError) when the
attribute was never assigned; the final branch is the explicit
`ValueError(f"Unknown method: ...")`. -/
def predict_returns {N : ℕ} (p : TimeSeriesPredictor N) (horizon : ℕ) :
    Except String (Fin N → ℚ) :=
  have _ := horizon
  if p.method = "ewma" then
    match p.span with
    | some s => .ok (predictEwmaWith s p.returns)
    | none => .error "AttributeError: span"
  else if p.method = "sma" then
    match p.window with
    | some w => .ok (predictSmaWith w p.returns)
    | none => .error "AttributeError: window"
  else if p.method = "ema" then
    match p.window with
    | some w => .ok (predictEwmaWith w p.returns)
    | none => .error "AttributeError: window"
  else if p.method = "historical_mean" then
    .ok (predictHistoricalMean p.returns)
  else
    .error ("Unknown method: " ++ p.method)

/-- `self.returns.cov()`: unbiased sample covariance (denominator `T - 1`)
of columns `i` and `j`.  pandas yields NaN for `T ≤ 1`; in exact arithmetic
those corners collapse to `0`, unused by the theorems. -/
def sampleCov {N : ℕ} (data : List (Fin N → ℚ)) (i j : Fin N) : ℚ :=
  ((data.map fun r => (r i - colMean data i) * (r j - colMean data j)).sum)
    / ((data.length : ℚ) - 1)

/-- The weights pandas assigns to the `m` observations of a prefix under
`ewm(adjust=False)`: the oldest point keeps weight `(1-α)^(m-1)`, later
points get `α·(1-α)^(m-1-i)`.  They sum to 1. -/
def ewWeights (α : ℚ) (m : ℕ) : List ℚ :=
  (List.range m).map fun i =>
    if i = 0 then (1 - α) ^ (m - 1) else α * (1 - α) ^ (m - 1 - i)

/-- Pointwise weighted dot product of two lists. -/
def weightedDot (ws vs : List ℚ) : ℚ :=
  ((List.zip ws vs).map fun q => q.1 * q.2).sum

/-- The `(i,j)` entry of the exponentially weighted covariance estimate over
a prefix `xs` of the table: weighted means, weighted cross-moment, and the
`bias=False` reliability correction `Σw / ((Σw)² − Σw²)` used by pandas. -/
def ewCovOn {N : ℕ} (α : ℚ) (xs : List (Fin N → ℚ)) (i j : Fin N) : ℚ :=
  let ws := ewWeights α xs.length
  let sw := ws.sum
  let sw2 := (ws.map fun w => w * w).sum
  let mi := weightedDot ws (xs.map fun r => r i) / sw
  let mj := weightedDot ws (xs.map fun r => r j) / sw
  let num := weightedDot ws (xs.map fun r => (r i - mi) * (r j - mj))
  num * sw / (sw * sw - sw2)

/-- `self.returns.ewm(span, adjust=False).cov().iloc[-N:]`: pandas produces
one N×N block per time index; the slice keeps only the final block, i.e. the
estimate over the whole table.  The empty-table corner is modelled as the
zero matrix, unused by the theorems. -/
def ewCovFinalSlice {N : ℕ} (α : ℚ) (data : List (Fin N → ℚ)) :
    Fin N → Fin N → ℚ :=
  (((List.range data.length).map fun t => ewCovOn α (data.take (t + 1))).getLastD
    fun _ _ => 0)

/-- `_ledoit_wolf_shrinkage`: sample covariance, identity target scaled by
the average variance `trace/N`, and the fixed shrinkage constant `0.2`. -/
def ledoitWolfShrinkage {N : ℕ} (data : List (Fin N → ℚ)) :
    Fin N → Fin N → ℚ :=
  let sample_cov := sampleCov data
  let avg_var := (∑ k, sample_cov k k) / (N : ℚ)
  let target : Fin N → Fin N → ℚ := fun a b => (if a = b then (1 : ℚ) else 0) * avg_var
  let shrinkage : ℚ := 0.2
  fun i j => shrinkage * target i j + (1 - shrinkage) * sample_cov i j

/-- `predict_covariance(method)`: dispatch on the covariance method string.
The `'ewma'` branch reads `getattr(self, 'span', 60)`; the final branch is
the explicit `ValueError(f"Unknown covariance method: ...")`. -/
def predict_covariance {N : ℕ} (p : TimeSeriesPredictor N) (method : String) :
    Except String (Fin N → Fin N → ℚ) :=
  if method = "sample" then
    .ok (sampleCov p.returns)
  else if method = "ewma" then
    let span := p.span.getD 60
    .ok (ewCovFinalSlice (2 / ((span : ℚ) + 1)) p.returns)
  else if method = "shrinkage" then
    .ok (ledoitWolfShrinkage p.returns)
  else
    .error ("Unknown covariance method: " ++ method)

/-- The pair returned by `get_predictions`. -/
structure Predictions (N : ℕ) where
  returns : Fin N → ℚ
  covariance : Fin N → Fin N → ℚ

/-- `get_predictions(annualize, periods_per_year)`: predicted returns with
the default horizon, covariance with the default `'sample'` method, then the
same linear scaling applied to both when `annualize` is true. -/
def get_predictions {N : ℕ} (p : TimeSeriesPredictor N) (annualize : Bool)
    (periods_per_year : ℕ) : Except String (Predictions N) :=
  match predict_returns p 1 with
  | .error e => .error e
  | .ok expected_returns =>
    match predict_covariance p "sample" with
    | .error e => .error e
    | .ok cov_matrix =>
      if annualize then
        .ok { returns := fun j => expected_returns j * (periods_per_year : ℚ)
              covariance := fun i j => cov_matrix i j * (periods_per_year : ℚ) }
      else
        .ok { returns := expected_returns, covariance := cov_matrix }

/- ===================== Portfolio optimizer ===================== -/

/-- The immutable state of a `PortfolioOptimizer` instance. -/
structure PortfolioOptimizer (n : ℕ) where
  expected_returns : Fin n → ℚ
  cov_matrix : Fin n → Fin n → ℚ
  risk_free_rate : ℚ

/-- `_calculate_portfolio_return`: `np.dot(weights, self.expected_returns)`. -/
def calculate_portfolio_return {n : ℕ} (O : PortfolioOptimizer n)
    (w : Fin n → ℚ) : ℚ :=
  ∑ i, w i * O.expected_returns i

/-- `_calculate_portfolio_volatility`:
`np.sqrt(np.dot(weights, np.dot(self.cov_matrix, weights)))`. -/
noncomputable def calculate_portfolio_volatility {n : ℕ}
    (O : PortfolioOptimizer n) (w : Fin n → ℚ) : ℝ :=
  Real.sqrt ((∑ i, w i * ∑ j, O.cov_matrix i j * w j : ℚ) : ℝ)

/-- `_calculate_sharpe_ratio`: `(return - risk_free_rate) / vol`, with the
explicit `0.0` branch when the computed volatility is exactly zero. -/
noncomputable def calculate_sharpe {n : ℕ} (O : PortfolioOptimizer n)
    (w : Fin n → ℚ) : ℝ :=
  if calculate_portfolio_volatility O w = 0 then 0
  else ((calculate_portfolio_return O w : ℚ) - (O.risk_free_rate : ℚ)) /
    calculate_portfolio_volatility O w

/-- The metrics triple of `get_portfolio_statistics`. -/
structure PortfolioStatistics where
  expected_return : ℚ
  volatility : ℝ
  sharpe : ℝ

/-- `get_portfolio_statistics(weights)`: the pure metrics computation. -/
noncomputable def get_portfolio_statistics {n : ℕ} (O : PortfolioOptimizer n)
    (w : Fin n → ℚ) : PortfolioStatistics :=
  { expected_return := calculate_portfolio_return O w
    volatility := calculate_portfolio_volatility O w
    sharpe := calculate_sharpe O w }

/-- The `constraints` dict with the defaults `.get` supplies. -/
structure ConstraintSet where
  max_weight : ℚ := 1
  min_weight : ℚ := 0
  long_only : Bool := true

/-- The per-asset bound pair every solver passes to `minimize`:
`(min_weight, max_weight)` when long-only, `(-max_weight, max_weight)`
otherwise. -/
def boundsFor {n : ℕ} (c : ConstraintSet) : Fin n → ℚ × ℚ :=
  if c.long_only then fun _ => (c.min_weight, c.max_weight)
  else fun _ => (-c.max_weight, c.max_weight)

/-- The equal-weights initial guess `x0 = [1/n] * n`. -/
def equalWeights (n : ℕ) : Fin n → ℚ := fun _ => 1 / (n : ℚ)

/-- The shared equality constraint `lambda x: np.sum(x) - 1.0`. -/
def sumToOneConstraint (n : ℕ) : (Fin n → ℚ) → ℚ :=
  fun x => (∑ i, x i) - 1

/-- The data each `optimize_*` method hands to `scipy.optimize.minimize`:
objective, initial guess, box bounds, equality constraints and inequality
constraints (SLSQP sign convention, `fun(x) ≥ 0`). -/
structure Problem (n : ℕ) where
  objective : (Fin n → ℚ) → ℝ
  x0 : Fin n → ℚ
  bounds : Fin n → ℚ × ℚ
  eqCons : List ((Fin n → ℚ) → ℚ)
  ineqCons : List ((Fin n → ℚ) → ℝ)

/-- What `minimize` hands back: the final iterate `result.x` and
`result.success`. -/
structure MinimizeResult (n : ℕ) where
  x : Fin n → ℚ
  success : Bool

/-- An abstract numerical solver standing for `scipy.optimize.minimize`;
it may raise (`Except.error`), as the frontier sweep anticipates. -/
abbrev Solver (n : ℕ) := Problem n → Except String (MinimizeResult n)

/-- The problem `optimize_max_sharpe` assembles: negative Sharpe objective,
equal-weight start, active bounds, and the sum-to-one equality. -/
noncomputable def maxSharpeProblem {n : ℕ} (O : PortfolioOptimizer n)
    (c : ConstraintSet) : Problem n :=
  { objective := fun w => -(calculate_sharpe O w)
    x0 := equalWeights n
    bounds := boundsFor c
    eqCons := [sumToOneConstraint n]
    ineqCons := [] }

/-- The problem `optimize_min_volatility` assembles. -/
noncomputable def minVolProblem {n : ℕ} (O : PortfolioOptimizer n)
    (c : ConstraintSet) : Problem n :=
  { objective := fun w => calculate_portfolio_volatility O w
    x0 := equalWeights n
    bounds := boundsFor c
    eqCons := [sumToOneConstraint n]
    ineqCons := [] }

/-- The problem `optimize_max_return` assembles. -/
noncomputable def maxReturnProblem {n : ℕ} (O : PortfolioOptimizer n)
    (c : ConstraintSet) : Problem n :=
  { objective := fun w => -((calculate_portfolio_return O w : ℚ) : ℝ)
    x0 := equalWeights n
    bounds := boundsFor c
    eqCons := [sumToOneConstraint n]
    ineqCons := [] }

/-- The problem `optimize_max_return_for_risk` assembles: the extra
inequality constraint `target_volatility - volatility(x) ≥ 0`. -/
noncomputable def maxReturnForRiskProblem {n : ℕ} (O : PortfolioOptimizer n)
    (target_volatility : ℝ) (c : ConstraintSet) : Problem n :=
  { objective := fun w => -((calculate_portfolio_return O w : ℚ) : ℝ)
    x0 := equalWeights n
    bounds := boundsFor c
    eqCons := [sumToOneConstraint n]
    ineqCons := [fun x => target_volatility - calculate_portfolio_volatility O x] }

/-- The dict every `optimize_*` method returns. -/
structure OptimizationResult (n : ℕ) where
  weights : Fin n → ℚ
  expected_return : ℚ
  volatility : ℝ
  sharpe : ℝ
  optimization_success : Bool

/-- The result-extraction block duplicated verbatim at the end of every
`optimize_*` method: metrics recomputed at `result.x`, success flag copied
through (a non-convergence only triggers a warning, never a raise). -/
noncomputable def mkResult {n : ℕ} (O : PortfolioOptimizer n)
    (result : MinimizeResult n) : OptimizationResult n :=
  { weights := result.x
    expected_return := calculate_portfolio_return O result.x
    volatility := calculate_portfolio_volatility O result.x
    sharpe := calculate_sharpe O result.x
    optimization_success := result.success }

/-- Run the abstract solver on an assembled problem and extract the result;
an exception inside `minimize` propagates (no handler in the methods). -/
noncomputable def runSolve {n : ℕ} (O : PortfolioOptimizer n)
    (solver : Solver n) (p : Problem n) :
    Except String (OptimizationResult n) :=
  match solver p with
  | .ok result => .ok (mkResult O result)
  | .error e => .error e

/-- `optimize_max_sharpe(constraints)`. -/
noncomputable def optimize_max_sharpe {n : ℕ} (solver : Solver n)
    (O : PortfolioOptimizer n) (c : ConstraintSet) :
    Except String (OptimizationResult n) :=
  runSolve O solver (maxSharpeProblem O c)

/-- `optimize_min_volatility(constraints)`. -/
noncomputable def optimize_min_volatility {n : ℕ} (solver : Solver n)
    (O : PortfolioOptimizer n) (c : ConstraintSet) :
    Except String (OptimizationResult n) :=
  runSolve O solver (minVolProblem O c)

/-- `optimize_max_return(constraints)`. -/
noncomputable def optimize_max_return {n : ℕ} (solver : Solver n)
    (O : PortfolioOptimizer n) (c : ConstraintSet) :
    Except String (OptimizationResult n) :=
  runSolve O solver (maxReturnProblem O c)

/-- `optimize_max_return_for_risk(target_volatility, constraints)`. -/
noncomputable def optimize_max_return_for_risk {n : ℕ} (solver : Solver n)
    (O : PortfolioOptimizer n) (target_volatility : ℝ) (c : ConstraintSet) :
    Except String (OptimizationResult n) :=
  runSolve O solver (maxReturnForRiskProblem O target_volatility c)

/-- One row of the efficient-frontier DataFrame. -/
structure FrontierPoint where
  volatility : ℝ
  expected_return : ℚ
  sharpe : ℝ

/-- `np.linspace(a, b, num)`: `num` evenly spaced samples from `a` to `b`
(step `(b-a)/(num-1)` for `num ≥ 2`; `[a]` for `num = 1`; empty for 0). -/
noncomputable def linspace (a b : ℝ) (num : ℕ) : List ℝ :=
  if num ≤ 1 then (List.range num).map fun _ => a
  else (List.range num).map fun (i : ℕ) => a + (i : ℝ) * ((b - a) / ((num : ℝ) - 1))

/-- The frontier loop body: per target, try `optimize_max_return_for_risk`;
on success append the (volatility, return, sharpe) row, on any exception
`continue` with the next grid value. -/
noncomputable def sweepPoints {n : ℕ} (solver : Solver n)
    (O : PortfolioOptimizer n) (c : ConstraintSet) :
    List ℝ → List FrontierPoint
  | [] => []
  | target :: rest =>
    match optimize_max_return_for_risk solver O target c with
    | .ok result =>
      { volatility := result.volatility
        expected_return := result.expected_return
        sharpe := result.sharpe } :: sweepPoints solver O c rest
    | .error _ => sweepPoints solver O c rest

/-- `calculate_efficient_frontier(n_points, constraints)`: the two anchor
solves (outside any handler, so their exceptions propagate), the volatility
grid from the min-volatility anchor to twice the max-Sharpe anchor, and the
guarded sweep. -/
noncomputable def calculate_efficient_frontier {n : ℕ} (solver : Solver n)
    (O : PortfolioOptimizer n) (n_points : ℕ) (c : ConstraintSet) :
    Except String (List FrontierPoint) :=
  match optimize_min_volatility solver O c with
  | .error e => .error e
  | .ok min_vol_result =>
    match optimize_max_sharpe solver O c with
    | .error e => .error e
    | .ok max_sharpe_result =>
      .ok (sweepPoints solver O c
        (linspace min_vol_result.volatility (max_sharpe_result.volatility * 2) n_points))

/-- The contract the code relies on from SLSQP: a result it reports as
successful satisfies each declared equality constraint within the numerical
tolerance and respects the declared box bounds. -/
def RespectsConstraints {n : ℕ} (p : Problem n) (r : MinimizeResult n) : Prop :=
  r.success = true →
    (∀ g ∈ p.eqCons, |g r.x| ≤ 1 / 1000000) ∧
    ∀ i, (p.bounds i).1 ≤ r.x i ∧ r.x i ≤ (p.bounds i).2

/-- The weight-vector invariant of the spec, as a property of one solve
outcome: whenever the solve succeeded, the weights sum to 1 within `1e-6`
and each lies within the active bound pair of the `ConstraintSet`. -/
def SolveInvariant {n : ℕ} (c : ConstraintSet)
    (out : Except String (OptimizationResult n)) : Prop :=
  ∀ res : OptimizationResult n, out = .ok res →
    res.optimization_success = true →
    |(∑ i, res.weights i) - 1| ≤ 1 / 1000000 ∧
    ∀ i, (boundsFor (n := n) c i).1 ≤ res.weights i ∧
      res.weights i ≤ (boundsFor (n := n) c i).2

/- ===================== Concrete instances for witnesses ===================== -/

/-- The default (empty) constraints dict. -/
def cs0 : ConstraintSet := {}

/-- The concrete three-asset scenario of the spec: expected returns
`[0.10, 0.15, 0.12]`, the given covariance, risk-free rate `0.02`. -/
def optScenario : PortfolioOptimizer 3 :=
  { expected_returns := ![1/10, 3/20, 3/25]
    cov_matrix := ![![1/25, 1/100, 3/200], ![1/100, 9/100, 1/50], ![3/200, 1/50, 3/50]]
    risk_free_rate := 1/50 }

/-- A solver that accepts the initial guess and reports success. -/
def trivialSolver (n : ℕ) : Solver n := fun p => .ok { x := p.x0, success := true }

/-- A solver that returns its best iterate but reports non-convergence. -/
def failSolver (n : ℕ) : Solver n := fun p => .ok { x := p.x0, success := false }

/-- A solver that raises on every problem carrying an inequality constraint
(i.e. on each per-grid-point solve) and succeeds on the anchor problems. -/
def riskAverseSolver (n : ℕ) : Solver n := fun p =>
  if p.ineqCons.isEmpty then .ok { x := p.x0, success := true }
  else .error "Infeasible"

/-- A tiny two-asset return table for the predictor witnesses. -/
def tsData : List (Fin 2 → ℚ) := [![1, 2], ![3, 4]]

/-- Empty kwargs. -/
def kw0 : FitKwargs := {}

/-- Kwargs selecting a smoothing span of 3. -/
def kwSpan3 : FitKwargs := { span := some 3 }

/-- The outcome `trivialSolver` produces on every anchor problem of the
concrete scenario. -/
noncomputable def anchorResult : OptimizationResult 3 :=
  mkResult optScenario { x := equalWeights 3, success := true }

/- ===================== Helper lemmas ===================== -/

lemma get_predictions_eq {N : ℕ} (p : TimeSeriesPredictor N) (P : ℕ)
    (r : Fin N → ℚ) (hr : predict_returns p 1 = .ok r) (a : Bool) :
    get_predictions p a P = .ok (if a then
        { returns := fun j => r j * (P : ℚ)
          covariance := fun i j => sampleCov p.returns i j * (P : ℚ) }
      else { returns := r, covariance := sampleCov p.returns }) := by
  unfold get_predictions
  rw [hr]
  rw [show predict_covariance p "sample" = .ok (sampleCov p.returns) from rfl]
  cases a <;> simp

lemma range_map_getLastD {β : Type} (f : ℕ → β) (T : ℕ) (d : β) (hT : T ≠ 0) :
    ((List.range T).map f).getLastD d = f (T - 1) := by
  obtain ⟨k, rfl⟩ := Nat.exists_eq_succ_of_ne_zero hT
  rw [List.range_succ, List.map_append, List.map_singleton, List.getLastD_concat]
  simp

lemma ewCovFinalSlice_eq {N : ℕ} (α : ℚ) (data : List (Fin N → ℚ))
    (h : data ≠ []) : ewCovFinalSlice α data = ewCovOn α data := by
  have hl : data.length ≠ 0 := by simpa using h
  unfold ewCovFinalSlice
  rw [range_map_getLastD _ _ _ hl,
    Nat.sub_add_cancel (Nat.one_le_iff_ne_zero.2 hl), List.take_length]

/- ===================== Claims about the predictor ===================== -/

/-- C9: the shrinkage covariance estimate is `0.2·T + 0.8·S`, where `S` is
the sample covariance of the full return table and `T` is the identity
scaled by `trace(S)/N`; the intensity is the fixed constant `0.2`. -/
theorem shrinkage_fixed_intensity_formula {N : ℕ} (data : List (Fin N → ℚ))
    (i j : Fin N) :
    ledoitWolfShrinkage data i j =
      (1/5) * (Matrix.trace (Matrix.of (sampleCov data)) / (N : ℚ)) *
        (if i = j then 1 else 0) +
      (4/5) * sampleCov data i j := by
  unfold ledoitWolfShrinkage
  simp only [Matrix.trace, Matrix.diag, Matrix.of_apply]
  split_ifs with h <;> norm_num

/-- C7: `fit` stores any method string without validation and never fails;
an unrecognized forecast method errors only when `predict_returns` runs, and
an unrecognized covariance method makes `predict_covariance` error. -/
theorem unknown_method_errors_at_predict_time {N : ℕ} (m cm : String)
    (data : List (Fin N → ℚ)) (kw : FitKwargs) (horizon : ℕ)
    (hm : m ∉ ["ewma", "sma", "ema", "historical_mean"])
    (hcm : cm ∉ ["sample", "ewma", "shrinkage"]) :
    (fit m data kw).method = m ∧ (fit m data kw).returns = data ∧
    predict_returns (fit m data kw) horizon = .error ("Unknown method: " ++ m) ∧
    predict_covariance (fit m data kw) cm =
      .error ("Unknown covariance method: " ++ cm) := by
  simp only [List.mem_cons, List.not_mem_nil, or_false, not_or] at hm hcm
  obtain ⟨h1, h2, h3, h4⟩ := hm
  obtain ⟨g1, g2, g3⟩ := hcm
  refine ⟨rfl, rfl, ?_, ?_⟩
  · simp only [predict_returns, fit]
    rw [if_neg h1, if_neg h2, if_neg h3, if_neg h4]
  · simp only [predict_covariance]
    rw [if_neg g1, if_neg g2, if_neg g3]

/-- Witness for C7 at the concrete method names `"arima"` / `"oas"`. -/
theorem unknown_method_errors_witness :
    (fit "arima" tsData kw0).method = "arima" ∧
    (fit "arima" tsData kw0).returns = tsData ∧
    predict_returns (fit "arima" tsData kw0) 1 =
      .error ("Unknown method: " ++ "arima") ∧
    predict_covariance (fit "arima" tsData kw0) "oas" =
      .error ("Unknown covariance method: " ++ "oas") :=
  unknown_method_errors_at_predict_time "arima" "oas" tsData kw0 1
    (by decide) (by decide)

/-- C6: with `annualize = true` the predictions equal the non-annualized
ones with both the return vector and the covariance matrix multiplied
elementwise by `periods_per_year` — the same linear factor, no square root. -/
theorem annualization_scales_linearly {N : ℕ} (p : TimeSeriesPredictor N)
    (P : ℕ) (q : Predictions N) (h : get_predictions p false P = .ok q) :
    get_predictions p true P = .ok
      { returns := fun j => q.returns j * (P : ℚ)
        covariance := fun i j => q.covariance i j * (P : ℚ) } := by
  cases hr : predict_returns p 1 with
  | error e =>
    rw [get_predictions, hr] at h
    cases h
  | ok r =>
    have h0 := get_predictions_eq p P r hr false
    rw [h, if_neg (by simp)] at h0
    have hq : q = { returns := r, covariance := sampleCov p.returns } :=
      Except.ok.inj h0
    subst hq
    exact get_predictions_eq p P r hr true

/-- Witness for C6 on the concrete two-asset table. -/
theorem annualization_scales_witness :
    get_predictions (fit "historical_mean" tsData kw0) true 3 = .ok
      { returns := fun j =>
          (Predictions.returns
            { returns := predictHistoricalMean tsData
              covariance := sampleCov tsData }) j * ((3 : ℕ) : ℚ)
        covariance := fun i j =>
          (Predictions.covariance
            { returns := predictHistoricalMean tsData
              covariance := sampleCov tsData }) i j * ((3 : ℕ) : ℚ) } :=
  annualization_scales_linearly (fit "historical_mean" tsData kw0) 3
    { returns := predictHistoricalMean tsData, covariance := sampleCov tsData }
    rfl

/-- C10: whatever forecasting method the estimator was fitted with,
`get_predictions` computes its covariance with the default `'sample'`
estimator (scaled only by the annualization factor); the exponentially
weighted and shrinkage estimators are never used by it. -/
theorem get_predictions_covariance_always_sample {N : ℕ}
    (p : TimeSeriesPredictor N) (P : ℕ) (a : Bool) (r : Fin N → ℚ)
    (h : predict_returns p 1 = .ok r) :
    ∃ q : Predictions N, get_predictions p a P = .ok q ∧
      ∀ i j, q.covariance i j =
        sampleCov p.returns i j * (if a then (P : ℚ) else 1) := by
  refine ⟨_, get_predictions_eq p P r h a, ?_⟩
  cases a <;> intro i j <;> simp

/-- Witness for C10 on the concrete two-asset table. -/
theorem covariance_always_sample_witness :
    ∃ q : Predictions 2,
      get_predictions (fit "historical_mean" tsData kw0) true 3 = .ok q ∧
      ∀ i j, q.covariance i j =
        sampleCov (fit "historical_mean" tsData kw0).returns i j *
          (if true then ((3 : ℕ) : ℚ) else 1) :=
  get_predictions_covariance_always_sample (fit "historical_mean" tsData kw0)
    3 true (predictHistoricalMean tsData) rfl

/-- C8: on an estimator fitted with the exponentially weighted method,
`predict_covariance('ewma')` uses the very span stored by `fit` (the `span`
kwarg, default 60) and returns the final N×N slice, i.e. the exponentially
weighted covariance estimate over the whole table. -/
theorem ewma_covariance_uses_fitted_span {N : ℕ} (data : List (Fin N → ℚ))
    (kw : FitKwargs) (hne : data ≠ []) :
    (fit "ewma" data kw).span = some (kw.span.getD 60) ∧
    predict_covariance (fit "ewma" data kw) "ewma" =
      .ok (ewCovOn (2 / (((kw.span.getD 60 : ℕ) : ℚ) + 1)) data) := by
  have hs : (fit "ewma" data kw).span = some (kw.span.getD 60) := by
    simp [fit]
  refine ⟨hs, ?_⟩
  have hr : (fit "ewma" data kw).returns = data := rfl
  unfold predict_covariance
  rw [if_neg (by decide), if_pos rfl, hs, hr]
  simp only [Option.getD_some]
  rw [ewCovFinalSlice_eq _ _ hne]

/-- Witness for C8 on the concrete two-asset table with span 3. -/
theorem ewma_covariance_witness :
    (fit "ewma" tsData kwSpan3).span = some (kwSpan3.span.getD 60) ∧
    predict_covariance (fit "ewma" tsData kwSpan3) "ewma" =
      .ok (ewCovOn (2 / (((kwSpan3.span.getD 60 : ℕ) : ℚ) + 1)) tsData) :=
  ewma_covariance_uses_fitted_span tsData kwSpan3 (by simp [tsData])

/- ===================== Optimizer helper lemmas ===================== -/

lemma runSolve_invariant {n : ℕ} (O : PortfolioOptimizer n) (solver : Solver n)
    (c : ConstraintSet) (p : Problem n)
    (hpe : p.eqCons = [sumToOneConstraint n]) (hpb : p.bounds = boundsFor c)
    (h : ∀ r, solver p = .ok r → RespectsConstraints p r) :
    SolveInvariant c (runSolve O solver p) := by
  intro res hok hsucc
  cases hsol : solver p with
  | error e => simp [runSolve, hsol] at hok
  | ok r =>
    simp only [runSolve, hsol, Except.ok.injEq] at hok
    subst hok
    obtain ⟨heq, hbd⟩ := h r hsol hsucc
    constructor
    · have hg := heq (sumToOneConstraint n) (by rw [hpe]; exact List.mem_singleton_self _)
      simpa [sumToOneConstraint, mkResult] using hg
    · intro i
      have hb := hbd i
      rw [hpb] at hb
      simpa [mkResult] using hb

lemma trivialSolver_respects (p : Problem 3)
    (hpe : p.eqCons = [sumToOneConstraint 3]) (hpb : p.bounds = boundsFor cs0)
    (hx : p.x0 = equalWeights 3) :
    ∀ r, trivialSolver 3 p = .ok r → RespectsConstraints p r := by
  intro r hr
  have hr2 : r = { x := p.x0, success := true } := (Except.ok.inj hr).symm
  subst hr2
  intro _
  constructor
  · intro g hg
    rw [hpe] at hg
    simp only [List.mem_singleton] at hg
    subst hg
    rw [hx]
    show |sumToOneConstraint 3 (equalWeights 3)| ≤ 1 / 1000000
    norm_num [sumToOneConstraint, equalWeights, Fin.sum_univ_three]
  · intro i
    rw [hpb, hx]
    norm_num [boundsFor, cs0, equalWeights]

lemma linspace_length (a b : ℝ) (m : ℕ) : (linspace a b m).length = m := by
  unfold linspace
  split <;> rw [List.length_map, List.length_range]

lemma linspace_getD (a b : ℝ) (m i : ℕ) (hm : ¬ m ≤ 1) (hi : i < m) :
    (linspace a b m).getD i 0 = a + (i : ℝ) * ((b - a) / ((m : ℝ) - 1)) := by
  unfold linspace
  rw [if_neg hm]
  rw [List.getD_eq_getElem?_getD, List.getElem?_map, List.getElem?_range hi]
  rfl

lemma sweepPoints_cons_ok {n : ℕ} (solver : Solver n) (O : PortfolioOptimizer n)
    (c : ConstraintSet) (t : ℝ) (rest : List ℝ) (r : OptimizationResult n)
    (h : optimize_max_return_for_risk solver O t c = .ok r) :
    sweepPoints solver O c (t :: rest) =
      { volatility := r.volatility, expected_return := r.expected_return
        sharpe := r.sharpe } :: sweepPoints solver O c rest := by
  simp [sweepPoints, h]

lemma sweepPoints_cons_error {n : ℕ} (solver : Solver n) (O : PortfolioOptimizer n)
    (c : ConstraintSet) (t : ℝ) (rest : List ℝ) (e : String)
    (h : optimize_max_return_for_risk solver O t c = .error e) :
    sweepPoints solver O c (t :: rest) = sweepPoints solver O c rest := by
  simp [sweepPoints, h]

lemma sweepPoints_length_le {n : ℕ} (solver : Solver n) (O : PortfolioOptimizer n)
    (c : ConstraintSet) (ts : List ℝ) :
    (sweepPoints solver O c ts).length ≤ ts.length := by
  induction ts with
  | nil => simp [sweepPoints]
  | cons t rest ih =>
    cases h : optimize_max_return_for_risk solver O t c with
    | ok r =>
      rw [sweepPoints_cons_ok solver O c t rest r h, List.length_cons, List.length_cons]
      exact Nat.succ_le_succ ih
    | error e =>
      rw [sweepPoints_cons_error solver O c t rest e h, List.length_cons]
      exact Nat.le_succ_of_le ih

lemma sweepPoints_append {n : ℕ} (solver : Solver n) (O : PortfolioOptimizer n)
    (c : ConstraintSet) (l₁ l₂ : List ℝ) :
    sweepPoints solver O c (l₁ ++ l₂) =
      sweepPoints solver O c l₁ ++ sweepPoints solver O c l₂ := by
  induction l₁ with
  | nil => simp [sweepPoints]
  | cons t rest ih =>
    rw [List.cons_append]
    cases h : optimize_max_return_for_risk solver O t c with
    | ok r =>
      rw [sweepPoints_cons_ok solver O c t _ r h, sweepPoints_cons_ok solver O c t rest r h,
        ih, List.cons_append]
    | error e =>
      rw [sweepPoints_cons_error solver O c t _ e h,
        sweepPoints_cons_error solver O c t rest e h, ih]

lemma sweepPoints_eq_filterMap {n : ℕ} (solver : Solver n)
    (O : PortfolioOptimizer n) (c : ConstraintSet) (ts : List ℝ) :
    sweepPoints solver O c ts = ts.filterMap (fun target =>
      match optimize_max_return_for_risk solver O target c with
      | .ok result => some { volatility := result.volatility
                             expected_return := result.expected_return
                             sharpe := result.sharpe }
      | .error _ => none) := by
  induction ts with
  | nil => simp [sweepPoints]
  | cons t rest ih =>
    cases h : optimize_max_return_for_risk solver O t c with
    | ok r =>
      rw [sweepPoints_cons_ok solver O c t rest r h, ih]
      simp [List.filterMap_cons, h]
    | error e =>
      rw [sweepPoints_cons_error solver O c t rest e h, ih]
      simp [List.filterMap_cons, h]

lemma frontier_eq_sweep {n : ℕ} (solver : Solver n) (O : PortfolioOptimizer n)
    (c : ConstraintSet) (n_points : ℕ) (rmv rms : OptimizationResult n)
    (hmv : optimize_min_volatility solver O c = .ok rmv)
    (hms : optimize_max_sharpe solver O c = .ok rms) :
    calculate_efficient_frontier solver O n_points c =
      .ok (sweepPoints solver O c
        (linspace rmv.volatility (rms.volatility * 2) n_points)) := by
  unfold calculate_efficient_frontier
  rw [hmv, hms]

/- ===================== Claims about the optimizer ===================== -/

/-- C5: `get_portfolio_statistics` computes `expected_return = w·μ`,
`volatility = sqrt(wᵀ Σ w)`, and the Sharpe ratio as excess return over
volatility, equal to `0` whenever the computed volatility is exactly `0`,
whatever the risk-free rate stored in the optimizer. -/
theorem portfolio_statistics_formulas {n : ℕ} (O : PortfolioOptimizer n)
    (w : Fin n → ℚ) :
    (get_portfolio_statistics O w).expected_return =
      Matrix.dotProduct w O.expected_returns ∧
    (get_portfolio_statistics O w).volatility =
      Real.sqrt ((Matrix.dotProduct w
        (Matrix.mulVec (Matrix.of O.cov_matrix) w) : ℚ) : ℝ) ∧
    ((get_portfolio_statistics O w).volatility = 0 →
      (get_portfolio_statistics O w).sharpe = 0) ∧
    ((get_portfolio_statistics O w).volatility ≠ 0 →
      (get_portfolio_statistics O w).sharpe =
        (((get_portfolio_statistics O w).expected_return : ℚ) -
          (O.risk_free_rate : ℚ)) / (get_portfolio_statistics O w).volatility) := by
  refine ⟨rfl, rfl, ?_, ?_⟩
  · intro h
    have h0 : calculate_portfolio_volatility O w = 0 := h
    show calculate_sharpe O w = 0
    unfold calculate_sharpe
    rw [if_pos h0]
  · intro h
    have h0 : ¬ calculate_portfolio_volatility O w = 0 := h
    show calculate_sharpe O w = _
    unfold calculate_sharpe
    rw [if_neg h0]
    rfl

/-- C4: whenever the solver reports non-convergence (a normal return with
`success = false`, as `scipy` signals it), each of the four objectives still
returns a result assembled from that best iterate, flagged
`optimization_success = false`; nothing is raised. -/
theorem nonconvergence_returns_flagged_result {n : ℕ} (solver : Solver n)
    (O : PortfolioOptimizer n) (c : ConstraintSet) (t : ℝ)
    (x₁ x₂ x₃ x₄ : Fin n → ℚ)
    (h1 : solver (maxSharpeProblem O c) = .ok { x := x₁, success := false })
    (h2 : solver (minVolProblem O c) = .ok { x := x₂, success := false })
    (h3 : solver (maxReturnProblem O c) = .ok { x := x₃, success := false })
    (h4 : solver (maxReturnForRiskProblem O t c) = .ok { x := x₄, success := false }) :
    optimize_max_sharpe solver O c = .ok
      { weights := x₁
        expected_return := calculate_portfolio_return O x₁
        volatility := calculate_portfolio_volatility O x₁
        sharpe := calculate_sharpe O x₁
        optimization_success := false } ∧
    optimize_min_volatility solver O c = .ok
      { weights := x₂
        expected_return := calculate_portfolio_return O x₂
        volatility := calculate_portfolio_volatility O x₂
        sharpe := calculate_sharpe O x₂
        optimization_success := false } ∧
    optimize_max_return solver O c = .ok
      { weights := x₃
        expected_return := calculate_portfolio_return O x₃
        volatility := calculate_portfolio_volatility O x₃
        sharpe := calculate_sharpe O x₃
        optimization_success := false } ∧
    optimize_max_return_for_risk solver O t c = .ok
      { weights := x₄
        expected_return := calculate_portfolio_return O x₄
        volatility := calculate_portfolio_volatility O x₄
        sharpe := calculate_sharpe O x₄
        optimization_success := false } := by
  refine ⟨?_, ?_, ?_, ?_⟩
  · unfold optimize_max_sharpe runSolve
    rw [h1]
    rfl
  · unfold optimize_min_volatility runSolve
    rw [h2]
    rfl
  · unfold optimize_max_return runSolve
    rw [h3]
    rfl
  · unfold optimize_max_return_for_risk runSolve
    rw [h4]
    rfl

/-- Witness for C4: a solver that hands back the initial guess with
`success = false`, on the concrete three-asset scenario. -/
theorem nonconvergence_witness :
    optimize_max_sharpe (failSolver 3) optScenario cs0 = .ok
      { weights := equalWeights 3
        expected_return := calculate_portfolio_return optScenario (equalWeights 3)
        volatility := calculate_portfolio_volatility optScenario (equalWeights 3)
        sharpe := calculate_sharpe optScenario (equalWeights 3)
        optimization_success := false } ∧
    optimize_min_volatility (failSolver 3) optScenario cs0 = .ok
      { weights := equalWeights 3
        expected_return := calculate_portfolio_return optScenario (equalWeights 3)
        volatility := calculate_portfolio_volatility optScenario (equalWeights 3)
        sharpe := calculate_sharpe optScenario (equalWeights 3)
        optimization_success := false } ∧
    optimize_max_return (failSolver 3) optScenario cs0 = .ok
      { weights := equalWeights 3
        expected_return := calculate_portfolio_return optScenario (equalWeights 3)
        volatility := calculate_portfolio_volatility optScenario (equalWeights 3)
        sharpe := calculate_sharpe optScenario (equalWeights 3)
        optimization_success := false } ∧
    optimize_max_return_for_risk (failSolver 3) optScenario 1 cs0 = .ok
      { weights := equalWeights 3
        expected_return := calculate_portfolio_return optScenario (equalWeights 3)
        volatility := calculate_portfolio_volatility optScenario (equalWeights 3)
        sharpe := calculate_sharpe optScenario (equalWeights 3)
        optimization_success := false } :=
  nonconvergence_returns_flagged_result (failSolver 3) optScenario cs0 1
    (equalWeights 3) (equalWeights 3) (equalWeights 3) (equalWeights 3)
    rfl rfl rfl rfl

/-- C1: under the solver contract (a successful SLSQP result satisfies the
declared equality constraints within `1e-6` and the declared box bounds),
every successful solve of the four objectives yields weights summing to 1
within `1e-6`, each within the active bound pair of the `ConstraintSet`. -/
theorem optimizers_feasible_on_success {n : ℕ} (solver : Solver n)
    (O : PortfolioOptimizer n) (c : ConstraintSet) (t : ℝ)
    (h1 : ∀ r, solver (maxSharpeProblem O c) = .ok r →
      RespectsConstraints (maxSharpeProblem O c) r)
    (h2 : ∀ r, solver (minVolProblem O c) = .ok r →
      RespectsConstraints (minVolProblem O c) r)
    (h3 : ∀ r, solver (maxReturnProblem O c) = .ok r →
      RespectsConstraints (maxReturnProblem O c) r)
    (h4 : ∀ r, solver (maxReturnForRiskProblem O t c) = .ok r →
      RespectsConstraints (maxReturnForRiskProblem O t c) r) :
    SolveInvariant c (optimize_max_sharpe solver O c) ∧
    SolveInvariant c (optimize_min_volatility solver O c) ∧
    SolveInvariant c (optimize_max_return solver O c) ∧
    SolveInvariant c (optimize_max_return_for_risk solver O t c) :=
  ⟨runSolve_invariant O solver c _ rfl rfl h1,
   runSolve_invariant O solver c _ rfl rfl h2,
   runSolve_invariant O solver c _ rfl rfl h3,
   runSolve_invariant O solver c _ rfl rfl h4⟩

/-- Witness for C1: a successful constraint-respecting solve of the
concrete three-asset scenario under the default constraints. -/
theorem optimizers_feasible_witness :
    SolveInvariant cs0 (optimize_max_sharpe (trivialSolver 3) optScenario cs0) ∧
    SolveInvariant cs0 (optimize_min_volatility (trivialSolver 3) optScenario cs0) ∧
    SolveInvariant cs0 (optimize_max_return (trivialSolver 3) optScenario cs0) ∧
    SolveInvariant cs0 (optimize_max_return_for_risk (trivialSolver 3) optScenario 1 cs0) :=
  optimizers_feasible_on_success (trivialSolver 3) optScenario cs0 1
    (trivialSolver_respects _ rfl rfl rfl)
    (trivialSolver_respects _ rfl rfl rfl)
    (trivialSolver_respects _ rfl rfl rfl)
    (trivialSolver_respects _ rfl rfl rfl)

/-- C2: given the two anchor solves, the frontier grid is exactly
`n_points` values evenly spaced from the min-volatility anchor's volatility
to twice the max-Sharpe anchor's volatility, the output is the sweep over
that grid (hence of length at most `n_points`, in grid order), and the grid
is non-decreasing whenever its endpoints are ordered. -/
theorem efficient_frontier_grid_spec {n : ℕ} (solver : Solver n)
    (O : PortfolioOptimizer n) (c : ConstraintSet) (n_points : ℕ)
    (rmv rms : OptimizationResult n)
    (hmv : optimize_min_volatility solver O c = .ok rmv)
    (hms : optimize_max_sharpe solver O c = .ok rms) :
    calculate_efficient_frontier solver O n_points c =
      .ok (sweepPoints solver O c
        (linspace rmv.volatility (rms.volatility * 2) n_points)) ∧
    (linspace rmv.volatility (rms.volatility * 2) n_points).length = n_points ∧
    (∀ pts, calculate_efficient_frontier solver O n_points c = .ok pts →
      pts.length ≤ n_points) ∧
    (∀ i : ℕ, i + 1 < n_points →
      (linspace rmv.volatility (rms.volatility * 2) n_points).getD (i + 1) 0 -
        (linspace rmv.volatility (rms.volatility * 2) n_points).getD i 0 =
        (rms.volatility * 2 - rmv.volatility) / ((n_points : ℝ) - 1)) ∧
    (2 ≤ n_points →
      (linspace rmv.volatility (rms.volatility * 2) n_points).getD 0 0 =
        rmv.volatility ∧
      (linspace rmv.volatility (rms.volatility * 2) n_points).getD (n_points - 1) 0 =
        rms.volatility * 2) ∧
    (rmv.volatility ≤ rms.volatility * 2 →
      ∀ i k : ℕ, i ≤ k → k < n_points →
        (linspace rmv.volatility (rms.volatility * 2) n_points).getD i 0 ≤
          (linspace rmv.volatility (rms.volatility * 2) n_points).getD k 0) := by
  have hfront := frontier_eq_sweep solver O c n_points rmv rms hmv hms
  refine ⟨hfront, linspace_length _ _ _, ?_, ?_, ?_, ?_⟩
  · intro pts hpts
    rw [hfront] at hpts
    have hp := Except.ok.inj hpts
    rw [← hp]
    exact le_trans (sweepPoints_length_le solver O c _)
      (le_of_eq (linspace_length _ _ _))
  · intro i hi
    have hm : ¬ n_points ≤ 1 := by omega
    rw [linspace_getD _ _ _ _ hm hi, linspace_getD _ _ _ _ hm (by omega)]
    push_cast
    ring
  · intro h2
    have hm : ¬ n_points ≤ 1 := by omega
    constructor
    · rw [linspace_getD _ _ _ _ hm (by omega)]
      simp
    · rw [linspace_getD _ _ _ _ hm (by omega)]
      have hcast : ((n_points - 1 : ℕ) : ℝ) = (n_points : ℝ) - 1 := by
        rw [Nat.cast_sub (by omega : (1 : ℕ) ≤ n_points), Nat.cast_one]
      have hne : ((n_points : ℝ) - 1) ≠ 0 := by
        have h2r : (2 : ℝ) ≤ (n_points : ℝ) := by exact_mod_cast h2
        linarith
      rw [hcast]
      field_simp
  · intro hab i k hik hk
    by_cases hm : n_points ≤ 1
    · have hi0 : i = 0 := by omega
      have hk0 : k = 0 := by omega
      rw [hi0, hk0]
    · have hi : i < n_points := lt_of_le_of_lt hik hk
      rw [linspace_getD _ _ _ _ hm hi, linspace_getD _ _ _ _ hm hk]
      have hs : 0 ≤ (rms.volatility * 2 - rmv.volatility) / ((n_points : ℝ) - 1) := by
        apply div_nonneg
        · linarith
        · have h2r : (2 : ℝ) ≤ (n_points : ℝ) := by
            exact_mod_cast (by omega : 2 ≤ n_points)
          linarith
      have hc : (i : ℝ) ≤ (k : ℝ) := by exact_mod_cast hik
      have hmul := mul_le_mul_of_nonneg_right hc hs
      linarith

/-- Witness for C2: the concrete scenario swept over a five-point grid. -/
theorem efficient_frontier_grid_witness :
    calculate_efficient_frontier (trivialSolver 3) optScenario 5 cs0 =
      .ok (sweepPoints (trivialSolver 3) optScenario cs0
        (linspace anchorResult.volatility (anchorResult.volatility * 2) 5)) ∧
    (linspace anchorResult.volatility (anchorResult.volatility * 2) 5).length = 5 ∧
    (∀ pts, calculate_efficient_frontier (trivialSolver 3) optScenario 5 cs0 = .ok pts →
      pts.length ≤ 5) ∧
    (∀ i : ℕ, i + 1 < 5 →
      (linspace anchorResult.volatility (anchorResult.volatility * 2) 5).getD (i + 1) 0 -
        (linspace anchorResult.volatility (anchorResult.volatility * 2) 5).getD i 0 =
        (anchorResult.volatility * 2 - anchorResult.volatility) / (((5 : ℕ) : ℝ) - 1)) ∧
    (2 ≤ 5 →
      (linspace anchorResult.volatility (anchorResult.volatility * 2) 5).getD 0 0 =
        anchorResult.volatility ∧
      (linspace anchorResult.volatility (anchorResult.volatility * 2) 5).getD (5 - 1) 0 =
        anchorResult.volatility * 2) ∧
    (anchorResult.volatility ≤ anchorResult.volatility * 2 →
      ∀ i k : ℕ, i ≤ k → k < 5 →
        (linspace anchorResult.volatility (anchorResult.volatility * 2) 5).getD i 0 ≤
          (linspace anchorResult.volatility (anchorResult.volatility * 2) 5).getD k 0) :=
  efficient_frontier_grid_spec (trivialSolver 3) optScenario cs0 5
    anchorResult anchorResult rfl rfl

/-- C3: a per-grid-point failure contributes nothing to the sweep and the
sweep continues past it; given the anchor solves, the frontier always
returns a value — the successes over the grid in order — so no per-point
error reaches the caller. -/
theorem frontier_point_errors_absorbed {n : ℕ} (solver : Solver n)
    (O : PortfolioOptimizer n) (c : ConstraintSet) (t : ℝ) (e : String)
    (ts₁ ts₂ : List ℝ) (n_points : ℕ) (rmv rms : OptimizationResult n)
    (herr : optimize_max_return_for_risk solver O t c = .error e)
    (hmv : optimize_min_volatility solver O c = .ok rmv)
    (hms : optimize_max_sharpe solver O c = .ok rms) :
    sweepPoints solver O c (ts₁ ++ t :: ts₂) =
      sweepPoints solver O c ts₁ ++ sweepPoints solver O c ts₂ ∧
    calculate_efficient_frontier solver O n_points c = .ok
      ((linspace rmv.volatility (rms.volatility * 2) n_points).filterMap
        fun target =>
          match optimize_max_return_for_risk solver O target c with
          | .ok result => some { volatility := result.volatility
                                 expected_return := result.expected_return
                                 sharpe := result.sharpe }
          | .error _ => none) := by
  constructor
  · rw [sweepPoints_append, sweepPoints_cons_error solver O c t ts₂ e herr]
  · rw [frontier_eq_sweep solver O c n_points rmv rms hmv hms,
      sweepPoints_eq_filterMap]

/-- Witness for C3: a solver that raises on every risk-targeted sub-solve
but solves the anchors; the failing grid point at target 1 is dropped and
the sweep still returns. -/
theorem frontier_errors_absorbed_witness :
    sweepPoints (riskAverseSolver 3) optScenario cs0 ([0] ++ 1 :: [2]) =
      sweepPoints (riskAverseSolver 3) optScenario cs0 [0] ++
        sweepPoints (riskAverseSolver 3) optScenario cs0 [2] ∧
    calculate_efficient_frontier (riskAverseSolver 3) optScenario 4 cs0 = .ok
      ((linspace anchorResult.volatility (anchorResult.volatility * 2) 4).filterMap
        fun target =>
          match optimize_max_return_for_risk (riskAverseSolver 3) optScenario target cs0 with
          | .ok result => some { volatility := result.volatility
                                 expected_return := result.expected_return
                                 sharpe := result.sharpe }
          | .error _ => none) :=
  frontier_point_errors_absorbed (riskAverseSolver 3) optScenario cs0 1
    "Infeasible" [0] [2] 4 anchorResult anchorResult rfl rfl rfl

end Finean
